import Mathlib

/-
Verification of the `ws` launcher script: a shallow embedding of its
port-gate / child-process supervision, terminal echo guard, configuration
merge, log tailing and file-sink formatting, with theorems about each.

Effectful Python code is embedded as pure functions over explicit inputs
describing the environment (whether the port is bound, how the spawned
child behaves, whether terminal attribute calls succeed, the persisted
configuration file state), returning a record of the observable outcome
(log events emitted, processes signalled, exit behaviour).
-/

namespace WS

/-! ## Log records

The script uses the standard five severity levels. -/

inductive LogLevel where
  | debug
  | info
  | warning
  | error
  | critical
deriving Repr, DecidableEq

/-- Numeric level, as in the `logging` module: DEBUG=10 … CRITICAL=50. -/
def levelno : LogLevel → Nat
  | .debug => 10
  | .info => 20
  | .warning => 30
  | .error => 40
  | .critical => 50

/-- Level name as rendered by `record.levelname`. -/
def levelName : LogLevel → String
  | .debug => "DEBUG"
  | .info => "INFO"
  | .warning => "WARNING"
  | .error => "ERROR"
  | .critical => "CRITICAL"

/-- One emitted log record: severity plus the fully rendered message. -/
structure LogEvent where
  level : LogLevel
  msg : String
deriving Repr, DecidableEq

/-! ## Supervision model (`start_web_server`, ws.py lines 274-310)

The environment tells the model what the outside world does: whether the
port probe reports the port bound, and how the `subprocess.Popen` launch
and the subsequent `proc.wait()` behave. -/

/-- Behaviour of the blocking `proc.wait()` call (ws.py line 291). -/
inductive WaitResult where
  /-- `proc.wait()` returned; `proc.returncode` is then `rc`
      (`none` models Python `None`). -/
  | done (rc : Option Int)
  /-- a `KeyboardInterrupt` was delivered during the wait; the flag says
      whether the child exited within the 5-second grace wait that the
      handler performs after `proc.terminate()`. -/
  | keyboardInterrupt (exitedWithinTimeout : Bool)
deriving Repr, DecidableEq

/-- Behaviour of the `subprocess.Popen` launch (ws.py line 289). -/
inductive SpawnResult where
  /-- the child was created and the wait behaves as `w`. -/
  | ok (w : WaitResult)
  /-- launch raised an `OSError` such as `FileNotFoundError` (what `Popen`
      actually raises when the command cannot be started); the `try` at
      line 287 only catches `subprocess.CalledProcessError`, so this
      exception is NOT caught there. -/
  | osError (detail : String)
  /-- a `subprocess.CalledProcessError` raised inside the `try` block — the
      only exception class the `except` at line 306 handles.  `Popen` and
      `Popen.wait` never raise it, so with this model of the environment
      the branch is reachable only hypothetically. -/
  | calledProcessError (detail : String)
deriving Repr, DecidableEq

/-- How control leaves `start_web_server`, determining the process exit. -/
inductive Outcome where
  /-- `sys.exit(code)` was called. -/
  | sysExit (code : Int)
  /-- the function returned normally; `main` then ends and the interpreter
      exits with status 0. -/
  | fallthrough
  /-- an exception propagated uncaught out of the function; the interpreter
      prints a traceback and exits with status 1. -/
  | uncaughtException (detail : String)
deriving Repr, DecidableEq

/-- The process exit status each outcome produces. -/
def processExitCode : Outcome → Int
  | .sysExit code => code
  | .fallthrough => 0
  | .uncaughtException _ => 1

/-- Python `"%s" % rc` rendering of `proc.returncode`. -/
def fmtReturncode : Option Int → String
  | none => "None"
  | some c => toString c

/-- Observable result of one run of `start_web_server`. -/
structure RunResult where
  /-- log records emitted through the logger, in order. -/
  log : List LogEvent
  /-- whether `subprocess.Popen` was invoked at all. -/
  popenCalled : Bool
  /-- the command handed to `Popen`, when it was invoked. -/
  command : Option (List String)
  /-- whether `proc.terminate()` was sent. -/
  terminateSent : Bool
  /-- whether `proc.kill()` was sent. -/
  killSent : Bool
  /-- the timeout (seconds) passed to the graceful `proc.wait(timeout=·)`
      in the interrupt handler, when that wait happened. -/
  graceTimeout : Option Nat
  /-- whether `restore_terminal` ran (the `finally` at line 309). -/
  restoredTerminal : Bool
  outcome : Outcome
deriving Repr, DecidableEq

/-- The normal-completion result (ws.py line 305: debug log, then the
function returns and the process exits 0). -/
def stoppedResult (cwd : String) (port : Int) (rc : Option Int) : RunResult :=
  { log := [⟨.debug, s!"Launching web server from {cwd} on port {port}"⟩,
            ⟨.info, s!"Starting web server on port {port}..."⟩,
            ⟨.debug, s!"Web server on port {port} stopped (return code {fmtReturncode rc})."⟩],
    popenCalled := true,
    command := some ["sudo", "python3", "-m", "http.server", toString port],
    terminateSent := false, killSent := false, graceTimeout := none,
    restoredTerminal := true, outcome := .fallthrough }

/-- Shallow embedding of `start_web_server(logger, port)` (ws.py 274-310).
`cwd` is `os.getcwd()`; `portInUse` is what `is_port_in_use(port)` reports;
`spawn` is the environment's behaviour for the launch and wait. -/
def start_web_server (cwd : String) (portInUse : Bool) (spawn : SpawnResult)
    (port : Int) : RunResult :=
  if portInUse then
    { log := [⟨.error, s!"There is already a web server running on port {port}."⟩],
      popenCalled := false, command := none,
      terminateSent := false, killSent := false, graceTimeout := none,
      restoredTerminal := false, outcome := .sysExit 1 }
  else
    let command := ["sudo", "python3", "-m", "http.server", toString port]
    let preLog : List LogEvent :=
      [⟨.debug, s!"Launching web server from {cwd} on port {port}"⟩,
       ⟨.info, s!"Starting web server on port {port}..."⟩]
    match spawn with
    | .osError detail =>
      -- Popen raised OSError: not a CalledProcessError, so the except
      -- clause does not fire; the finally still runs restore_terminal and
      -- the exception escapes uncaught.
      { log := preLog, popenCalled := true, command := some command,
        terminateSent := false, killSent := false, graceTimeout := none,
        restoredTerminal := true, outcome := .uncaughtException detail }
    | .calledProcessError detail =>
      { log := preLog ++ [⟨.error, s!"Error starting the web server: {detail}"⟩],
        popenCalled := true, command := some command,
        terminateSent := false, killSent := false, graceTimeout := none,
        restoredTerminal := true, outcome := .sysExit 1 }
    | .ok w =>
      match w with
      | .keyboardInterrupt exitedWithinTimeout =>
        -- ws.py 292-300: terminate, wait(timeout=5), kill on TimeoutExpired,
        -- debug log, sys.exit(0); finally restores the terminal.
        { log := preLog ++ [⟨.debug, s!"Web server on port {port} stopped."⟩],
          popenCalled := true, command := some command,
          terminateSent := true, killSent := !exitedWithinTimeout,
          graceTimeout := some 5,
          restoredTerminal := true, outcome := .sysExit 0 }
      | .done rc =>
        match rc with
        | some c =>
          if c = 0 then stoppedResult cwd port (some 0)
          else
            { log := preLog ++ [⟨.error, s!"Web server exited with code {c}"⟩],
              popenCalled := true, command := some command,
              terminateSent := false, killSent := false, graceTimeout := none,
              restoredTerminal := true, outcome := .sysExit c }
        | none => stoppedResult cwd port none

/-! ## Terminal echo guard (`suppress_ctrl_c_echo` / `restore_terminal`,
ws.py lines 213-238)

Terminal attributes are modelled after the list `termios.tcgetattr`
returns: `[iflag, oflag, cflag, lflag, ispeed, ospeed, cc]`; index 3 is
the local-modes field the code touches. -/

/-- Snapshot of terminal attributes. -/
structure TermAttrs where
  iflag : Nat
  oflag : Nat
  cflag : Nat
  lflag : Nat
  ispeed : Nat
  ospeed : Nat
  cc : List Nat
deriving Repr, DecidableEq

/-- `termios.ECHOCTL` on Linux: octal 0o001000, i.e. bit 9. -/
def ECHOCTL : Nat := 512

/-- Python `value & ~mask` on a non-negative int: clear the mask's bits.
Since `value &&& mask` extracts exactly the bits common to both, the
subtraction removes those bits and nothing else. -/
def clearMask (value mask : Nat) : Nat := value - (value &&& mask)

/-- Shallow embedding of `suppress_ctrl_c_echo()` (ws.py 213-228).
Inputs describe the environment: whether stdin is a TTY and whether the
`tcgetattr` / `tcsetattr` calls raise.  Returns the value the function
returns (the captured snapshot, with the file descriptor dropped) paired
with the terminal state afterwards. -/
def suppress_ctrl_c_echo (isatty tcgetattrFails tcsetattrFails : Bool)
    (term : TermAttrs) : Option TermAttrs × TermAttrs :=
  if !isatty then (none, term)
  else if tcgetattrFails then (none, term)
  else
    let newAttrs := { term with lflag := clearMask term.lflag ECHOCTL }
    if tcsetattrFails then (none, term)
    else (some term, newAttrs)

/-- Shallow embedding of `restore_terminal(settings)` (ws.py 231-238):
returns the terminal state afterwards. -/
def restore_terminal (settings : Option TermAttrs) (tcsetattrFails : Bool)
    (term : TermAttrs) : TermAttrs :=
  match settings with
  | none => term
  | some attrs => if tcsetattrFails then term else attrs

/-! ## Configuration load and merge (`load_config`, ws.py lines 109-120)

JSON values and Python dicts: a parsed JSON object is a list of key/value
pairs in insertion order; `dict.update` replaces existing keys in place
and appends new keys, which is modelled exactly. -/

/-- A JSON value, as far as the configuration needs. -/
inductive JVal where
  | str (s : String)
  | num (n : Int)
  | boolean (b : Bool)
  | null
deriving Repr, DecidableEq

/-- Lookup in a Python dict modelled as an ordered association list
(keys unique in any real dict): first match. -/
def dictLookup : List (String × JVal) → String → Option JVal
  | [], _ => none
  | (k, v) :: rest, key => if k = key then some v else dictLookup rest key

/-- `d[k] = v` on a Python dict: replace the value at an existing key in
place, otherwise append the new pair at the end. -/
def dictSet (d : List (String × JVal)) (k : String) (v : JVal) :
    List (String × JVal) :=
  match d with
  | [] => [(k, v)]
  | (k1, v1) :: rest =>
    if k1 = k then (k1, v) :: rest else (k1, v1) :: dictSet rest k v

/-- `d.update(other)`: set every pair of `other` into `d`, in order. -/
def dictUpdate (d other : List (String × JVal)) : List (String × JVal) :=
  other.foldl (fun acc kv => dictSet acc kv.1 kv.2) d

/-- `DEFAULT_CONFIG` (ws.py 39-44); `cwd` is `os.getcwd()` at import. -/
def DEFAULT_CONFIG (cwd : String) : List (String × JVal) :=
  [("LOG_LEVEL", .str "INFO"),
   ("MAX_BYTES", .num 500000),
   ("BACKUP_COUNT", .num 5),
   ("CURRENT_DIR", .str cwd)]

/-- State of the persisted config file as `load_config` observes it. -/
inductive FileState where
  /-- `os.path.exists(CONFIG_PATH)` is false. -/
  | absent
  /-- the file exists but `json.load` raises `JSONDecodeError`. -/
  | malformed
  /-- the file parses to valid JSON that is not a dict. -/
  | parsedNonDict
  /-- the file parses to a JSON object with these entries. -/
  | parsedDict (entries : List (String × JVal))
deriving Repr, DecidableEq

/-- Shallow embedding of `load_config()` (ws.py 109-120): copy the
defaults, then `update` with the file's dict when one parses. -/
def load_config (cwd : String) : FileState → List (String × JVal)
  | .parsedDict entries => dictUpdate (DEFAULT_CONFIG cwd) entries
  | _ => DEFAULT_CONFIG cwd

/-- Modelled from the spec's words, for comparison with `load_config`:
"built-in defaults overridden by the file's values with unknown keys
ignored" — only default keys survive, each taking the file's value when
the file provides one. -/
def load_config_spec_merge (cwd : String) (entries : List (String × JVal)) :
    List (String × JVal) :=
  (DEFAULT_CONFIG cwd).map fun kv =>
    match dictLookup entries kv.1 with
    | some v => (kv.1, v)
    | none => kv

/-! ## Log tailing (`tail_log` / `handle_log_option`, ws.py lines 195-210)

The file system is an `Option (List String)`: `none` when
`os.path.exists` is false, otherwise the list of lines `readlines`
returns (each possibly carrying its trailing newline). -/

/-- Python `str.rstrip()` whitespace set (ASCII part; the unicode
whitespace code points Python also strips do not occur in log lines the
program writes). -/
def pyIsSpace (c : Char) : Bool :=
  c = ' ' || c = '\t' || c = '\n' || c = '\x0b' || c = '\x0c' || c = '\r'

/-- Python `line.rstrip()`: drop trailing whitespace. -/
def rstrip (s : String) : String :=
  String.mk (s.data.reverse.dropWhile pyIsSpace).reverse

/-- Python `l[-n:]`: the last `n` elements — except that `l[-0:]` is the
whole list, a genuine Python slicing quirk kept here. -/
def pySliceLast (n : Nat) (l : List String) : List String :=
  if n = 0 then l else l.drop (l.length - n)

/-- Shallow embedding of `tail_log(log_file_path, lines)` (ws.py
195-202): the lines printed to standard output. -/
def tail_log (path : String) (file : Option (List String)) (n : Nat) :
    List String :=
  match file with
  | none => [s!"Log file not found: {path}"]
  | some ls => (pySliceLast n ls).map rstrip

/-- What `handle_log_option` did: lines printed, and the `sys.exit` code
when it exited. -/
structure LogOptionResult where
  output : List String
  exitCode : Option Int
deriving Repr, DecidableEq

/-- Shallow embedding of `handle_log_option(args, log_file_path)`
(ws.py 207-210). -/
def handle_log_option (logFlag : Bool) (path : String)
    (file : Option (List String)) : LogOptionResult :=
  if logFlag then { output := tail_log path file 200, exitCode := some 0 }
  else { output := [], exitCode := none }

/-- Observable behaviour of the tail of `main` (ws.py 330-333): after
logging is set up, `handle_log_option` may exit early; otherwise
`start_web_server` runs. -/
structure MainPhase where
  printed : List String
  startWebServerInvoked : Bool
  earlyExit : Option Int
  supervision : Option RunResult
deriving Repr, DecidableEq

/-- The `handle_log_option` / `start_web_server` sequence in `main`. -/
def main_after_setup (logFlag : Bool) (logFilePath : String)
    (file : Option (List String)) (cwd : String) (portInUse : Bool)
    (spawn : SpawnResult) (port : Int) : MainPhase :=
  let h := handle_log_option logFlag logFilePath file
  match h.exitCode with
  | some c =>
    { printed := h.output, startWebServerInvoked := false,
      earlyExit := some c, supervision := none }
  | none =>
    { printed := h.output, startWebServerInvoked := true, earlyExit := none,
      supervision := some (start_web_server cwd portInUse spawn port) }

/-! ## File-sink formatting (`PlainFormatter`, ws.py lines 148-154) and
`setup_logging` (ws.py lines 159-190)

`PlainFormatter.ansi_escape` is the regex: an ESC byte followed by
either one byte in the class 0x40-0x5A or 0x5C-0x5F, or a literal open
bracket, any parameter bytes 0x30-0x3F, any intermediate bytes
0x20-0x2F, and one final byte 0x40-0x7E; `sub` removes every
non-overlapping match, scanning left to right.  The character classes
below are exactly the regex's. -/

/-- Matches the regex's first alternative, a single byte in 0x40-0x5A or
0x5C-0x5F (a two-character escape sequence). -/
def isEscFe (c : Char) : Bool :=
  (0x40 ≤ c.toNat && c.toNat ≤ 0x5A) || (0x5C ≤ c.toNat && c.toNat ≤ 0x5F)

/-- Matches a CSI parameter byte, 0x30-0x3F. -/
def isCsiParam (c : Char) : Bool := 0x30 ≤ c.toNat && c.toNat ≤ 0x3F

/-- Matches a CSI intermediate byte, 0x20-0x2F. -/
def isCsiInter (c : Char) : Bool := 0x20 ≤ c.toNat && c.toNat ≤ 0x2F

/-- Matches a CSI final byte, 0x40-0x7E. -/
def isCsiFinal (c : Char) : Bool := 0x40 ≤ c.toNat && c.toNat ≤ 0x7E

/-- Try to match parameter bytes, then intermediate bytes, then one final
byte at the front of `l` (what follows the ESC and open bracket); on
success return the rest of the input.  The three classes are pairwise
disjoint where it matters, so maximal munch needs no backtracking,
exactly as the regex engine behaves here. -/
def tryCsi (l : List Char) : Option (List Char) :=
  match (l.dropWhile isCsiParam).dropWhile isCsiInter with
  | f :: rest => if isCsiFinal f then some rest else none
  | [] => none

theorem length_dropWhile_le (p : Char → Bool) (l : List Char) :
    (l.dropWhile p).length ≤ l.length := by
  induction l with
  | nil => simp
  | cons a l ih =>
    rw [List.dropWhile_cons]
    split
    · exact Nat.le_succ_of_le ih
    · exact Nat.le_refl _

theorem tryCsi_length_lt {l r : List Char} (h : tryCsi l = some r) :
    r.length < l.length := by
  have h1 : ((l.dropWhile isCsiParam).dropWhile isCsiInter).length ≤ l.length :=
    Nat.le_trans (length_dropWhile_le _ _) (length_dropWhile_le _ _)
  unfold tryCsi at h
  cases hm : (l.dropWhile isCsiParam).dropWhile isCsiInter with
  | nil => rw [hm] at h; simp at h
  | cons f rest =>
    rw [hm] at h h1
    simp only [List.length_cons] at h1
    by_cases hf : isCsiFinal f = true
    · simp only [hf, if_true] at h
      cases h
      omega
    · simp [hf] at h

/-- `ansi_escape.sub('', s)` on the character list of `s`: delete every
match of the pattern, scanning left to right; an `ESC` that does not open
a full match is kept and scanning resumes after it. -/
def stripAnsi : List Char → List Char
  | [] => []
  | c :: rest =>
    if c = '\x1B' then
      match rest with
      | [] => [c]
      | d :: rest2 =>
        if isEscFe d then stripAnsi rest2
        else if d = '[' then
          match hm : tryCsi rest2 with
          | some rest3 => stripAnsi rest3
          | none => c :: stripAnsi (d :: rest2)
        else c :: stripAnsi (d :: rest2)
    else c :: stripAnsi rest
termination_by l => l.length
decreasing_by
  all_goals first
  | (simp only [List.length_cons]; omega)
  | (have h3 := tryCsi_length_lt hm; simp only [List.length_cons]; omega)

/-- String version of the ANSI-escape removal. -/
def stripAnsiStr (s : String) : String := String.mk (stripAnsi s.data)

/-- `PlainFormatter.format` (ws.py 151-154), with the wall-clock
timestamp an input. -/
def plainFormat (timestamp : String) (lvl : LogLevel) (msg : String) :
    String :=
  s!"[{timestamp}] {levelName lvl}: {stripAnsiStr msg}"

/-- The level configuration `setup_logging` leaves behind: root logger
level and the two handler levels. -/
structure LoggingConfig where
  consoleLevel : Nat
  fileLevel : Nat
  rootLevel : Nat
deriving Repr, DecidableEq

/-- `getattr(logging, name, logging.INFO)` restricted to the integer
level attributes the `logging` module exposes; any other name falls back
to the `logging.INFO` default. -/
def levelAttr (s : String) : Nat :=
  if s = "CRITICAL" then 50
  else if s = "FATAL" then 50
  else if s = "ERROR" then 40
  else if s = "WARNING" then 30
  else if s = "WARN" then 30
  else if s = "INFO" then 20
  else if s = "DEBUG" then 10
  else if s = "NOTSET" then 0
  else 20

/-- Shallow embedding of the level wiring in `setup_logging` (ws.py
159-190): console level from the CLI override `or` the config value
(Python `or`, so an empty CLI string also falls back), uppercased; the
root logger and the rotating file handler are both set to DEBUG. -/
def setup_logging (cliLogLevel configLogLevel : Option String) :
    LoggingConfig :=
  let consoleLevelStr :=
    match cliLogLevel with
    | some s => if s = "" then configLogLevel.getD "INFO" else s
    | none => configLogLevel.getD "INFO"
  { consoleLevel := levelAttr consoleLevelStr.toUpper,
    fileLevel := 10,
    rootLevel := 10 }

/-- What the rotating file handler writes for one record: the logger
forwards a record iff its level passes the root logger's level, and the
handler formats it iff it passes the handler's own level. -/
def fileSinkOutput (lc : LoggingConfig) (lvl : LogLevel)
    (timestamp msg : String) : Option String :=
  if lc.rootLevel ≤ levelno lvl ∧ lc.fileLevel ≤ levelno lvl then
    some (plainFormat timestamp lvl msg)
  else none

/-! ## Claim theorems -/

/-- C1: if the supervisor's blocking wait on the child is interrupted by a
keyboard interrupt, the supervisor requests graceful termination of the
child (`terminate`), waits at most 5 seconds for it to exit, force-kills
it exactly when it has not exited by then, logs at debug level that the
server stopped, and terminates the process with exit code 0. -/
theorem c1_interrupt_graceful_stop (cwd : String) (port : Int)
    (exitedWithinTimeout : Bool) :
    (start_web_server cwd false (.ok (.keyboardInterrupt exitedWithinTimeout))
        port).terminateSent = true ∧
    (start_web_server cwd false (.ok (.keyboardInterrupt exitedWithinTimeout))
        port).graceTimeout = some 5 ∧
    (start_web_server cwd false (.ok (.keyboardInterrupt exitedWithinTimeout))
        port).killSent = !exitedWithinTimeout ∧
    (start_web_server cwd false (.ok (.keyboardInterrupt exitedWithinTimeout))
        port).log.getLast?
      = some ⟨.debug, s!"Web server on port {port} stopped."⟩ ∧
    (start_web_server cwd false (.ok (.keyboardInterrupt exitedWithinTimeout))
        port).outcome = .sysExit 0 :=
  ⟨rfl, rfl, rfl, rfl, rfl⟩

/-- C2: for every child exit status, supervision exits with the child's
code when it is a nonzero integer (exactly, not clamped), after an error
log naming it; and exits 0 after a debug-level log when the code is 0 or
unset (`None`). -/
theorem c2_exit_code_propagation (cwd : String) (port : Int)
    (rc : Option Int) :
    processExitCode (start_web_server cwd false (.ok (.done rc)) port).outcome
      = rc.getD 0 ∧
    (∀ c : Int, rc = some c → c ≠ 0 →
      (start_web_server cwd false (.ok (.done rc)) port).outcome = .sysExit c ∧
      LogEvent.mk .error s!"Web server exited with code {c}"
        ∈ (start_web_server cwd false (.ok (.done rc)) port).log) ∧
    (rc = none ∨ rc = some 0 →
      (start_web_server cwd false (.ok (.done rc)) port).outcome = .fallthrough ∧
      (start_web_server cwd false (.ok (.done rc)) port).log.getLast?
        = some (LogEvent.mk .debug
            s!"Web server on port {port} stopped (return code {fmtReturncode rc}).")) := by
  cases rc with
  | none =>
    refine ⟨rfl, ?_, ?_⟩
    · intro c hc; exact absurd hc (by simp)
    · intro hz; exact ⟨rfl, rfl⟩
  | some c =>
    by_cases hc : c = 0
    · subst hc
      refine ⟨rfl, ?_, ?_⟩
      · intro c1 hc1 hne
        cases hc1
        exact absurd rfl hne
      · intro hz; exact ⟨rfl, rfl⟩
    · refine ⟨?_, ?_, ?_⟩
      · simp [start_web_server, hc, processExitCode]
      · intro c1 hc1 hne
        cases hc1
        constructor
        · simp [start_web_server, hc]
        · simp [start_web_server, hc]
      · intro hz
        rcases hz with hz | hz
        · exact absurd hz (by simp)
        · cases hz; exact absurd rfl hc

/-- Witness for C2 at a child that exits with code 17: supervision exits
with exactly code 17 and logs the error naming it. -/
theorem c2_exit_code_propagation_witness :
    (some (17 : Int) = some (17 : Int)) ∧ ((17 : Int) ≠ 0) ∧
    ((start_web_server "d" false (.ok (.done (some 17))) 80).outcome
        = .sysExit 17 ∧
      LogEvent.mk .error s!"Web server exited with code {(17 : Int)}"
        ∈ (start_web_server "d" false (.ok (.done (some 17))) 80).log) :=
  ⟨rfl, by decide,
    (c2_exit_code_propagation "d" 80 (some 17)).2.1 17 rfl (by decide)⟩

/-- C3: when the port probe reports the port bound, supervision logs an
error naming the port and exits 1 without `Popen` ever being invoked. -/
theorem c3_bound_port_rejected (cwd : String) (spawn : SpawnResult)
    (port : Int) :
    start_web_server cwd true spawn port =
      { log := [⟨.error, s!"There is already a web server running on port {port}."⟩],
        popenCalled := false, command := none,
        terminateSent := false, killSent := false, graceTimeout := none,
        restoredTerminal := false, outcome := .sysExit 1 } :=
  rfl

/-- C4: at the failing input where `Popen` raises `FileNotFoundError`
(e.g. the privilege-escalation wrapper is not on the PATH), the code does
exit with status 1, but only because the exception escapes uncaught — the
`except subprocess.CalledProcessError` clause cannot catch it, so no
error is logged through the logger, contradicting the claim that the
failure detail is logged. -/
theorem c4_launch_failure_uncaught :
    (start_web_server "d" false
        (.osError "FileNotFoundError: No such file or directory: sudo")
        80).outcome
      = .uncaughtException "FileNotFoundError: No such file or directory: sudo" ∧
    processExitCode (start_web_server "d" false
        (.osError "FileNotFoundError: No such file or directory: sudo")
        80).outcome = 1 ∧
    (start_web_server "d" false
        (.osError "FileNotFoundError: No such file or directory: sudo")
        80).log.all (fun e => e.level != LogLevel.error) = true :=
  ⟨rfl, rfl, rfl⟩

/-- C5: on every exit path from supervision (normal completion,
propagated child error, launch failure, interruption — every behaviour of
the spawned environment once the port gate has passed), `restore_terminal`
runs; and release restores exactly the attributes captured at acquire, so
acquire followed by release is a no-op on the terminal state. -/
theorem c5_guard_released_and_roundtrip :
    (∀ (cwd : String) (spawn : SpawnResult) (port : Int),
      (start_web_server cwd false spawn port).restoredTerminal = true) ∧
    (∀ (isatty tcgetattrFails tcsetattrFails : Bool) (term : TermAttrs),
      restore_terminal
        (suppress_ctrl_c_echo isatty tcgetattrFails tcsetattrFails term).1
        false
        (suppress_ctrl_c_echo isatty tcgetattrFails tcsetattrFails term).2
        = term) := by
  constructor
  · intro cwd spawn port
    cases spawn with
    | ok w =>
      cases w with
      | done rc =>
        cases rc with
        | some c =>
          by_cases hc : c = 0 <;>
            simp [start_web_server, stoppedResult, hc]
        | none => rfl
      | keyboardInterrupt b => rfl
    | osError d => rfl
    | calledProcessError d => rfl
  · intro isatty g s term
    cases isatty <;> cases g <;> cases s <;>
      simp [suppress_ctrl_c_echo, restore_terminal]

/-- C6: with the `-log` flag given and no log file on disk, the program
prints the not-found notice naming the log file path and exits 0 before
`start_web_server` is ever invoked. -/
theorem c6_log_flag_absent_file (path cwd : String) (portInUse : Bool)
    (spawn : SpawnResult) (port : Int) :
    main_after_setup true path none cwd portInUse spawn port =
      { printed := [s!"Log file not found: {path}"],
        startWebServerInvoked := false, earlyExit := some 0,
        supervision := none } :=
  rfl

/-- C7: for every record and every console level configuration (CLI
override and persisted value alike), the file sink captures the record —
its level gate is DEBUG, which every level passes — and renders it as the
timestamp in brackets, the level name, a colon, and the message with the
ANSI escape sequences stripped. -/
theorem c7_file_sink_always_captures
    (cliLogLevel configLogLevel : Option String) (lvl : LogLevel)
    (timestamp msg : String) :
    fileSinkOutput (setup_logging cliLogLevel configLogLevel) lvl timestamp msg
      = some ("[" ++ timestamp ++ "] " ++ levelName lvl ++ ": "
          ++ stripAnsiStr msg) := by
  cases lvl <;>
    simp [fileSinkOutput, setup_logging, levelno, plainFormat, toString,
      String.append_empty, String.append_assoc]

/-! ## Dictionary merge lemmas for the configuration claims -/

/-- Left-biased choice on options, for stating lookup lemmas. -/
def firstSome (a b : Option JVal) : Option JVal :=
  match a with
  | some v => some v
  | none => b

theorem dictLookup_dictSet (d : List (String × JVal)) (k : String) (v : JVal)
    (key : String) :
    dictLookup (dictSet d k v) key
      = if k = key then some v else dictLookup d key := by
  induction d with
  | nil =>
    by_cases h : k = key <;> simp [dictSet, dictLookup, h]
  | cons kv rest ih =>
    obtain ⟨k1, v1⟩ := kv
    by_cases h1 : k1 = k
    · subst h1
      by_cases h2 : k1 = key <;> simp [dictSet, dictLookup, h2]
    · by_cases h2 : k1 = key <;> by_cases h3 : k = key <;>
        simp_all [dictSet, dictLookup]

theorem dictLookup_append (a b : List (String × JVal)) (key : String) :
    dictLookup (a ++ b) key
      = firstSome (dictLookup a key) (dictLookup b key) := by
  induction a with
  | nil => simp [dictLookup, firstSome]
  | cons kv rest ih =>
    obtain ⟨k1, v1⟩ := kv
    by_cases h : k1 = key <;> simp [dictLookup, firstSome, h, ih]

theorem dictLookup_dictUpdate (d other : List (String × JVal))
    (key : String) :
    dictLookup (dictUpdate d other) key
      = firstSome (dictLookup other.reverse key) (dictLookup d key) := by
  induction other generalizing d with
  | nil => simp [dictUpdate, dictLookup, firstSome]
  | cons kv rest ih =>
    obtain ⟨k, v⟩ := kv
    show dictLookup (dictUpdate (dictSet d k v) rest) key = _
    rw [ih, dictLookup_dictSet, List.reverse_cons, dictLookup_append]
    by_cases h : k = key <;>
      cases hl : dictLookup rest.reverse key <;>
        simp [firstSome, dictLookup, h, hl]

theorem dictLookup_eq_none_of_not_mem (l : List (String × JVal))
    (key : String) (h : key ∉ l.map Prod.fst) : dictLookup l key = none := by
  induction l with
  | nil => rfl
  | cons kv rest ih =>
    obtain ⟨k1, v1⟩ := kv
    simp only [List.map_cons, List.mem_cons] at h
    push_neg at h
    obtain ⟨h1, h2⟩ := h
    simp [dictLookup, ih h2, Ne.symm h1]

theorem dictLookup_reverse_of_nodup (l : List (String × JVal)) (key : String)
    (h : (l.map Prod.fst).Nodup) :
    dictLookup l.reverse key = dictLookup l key := by
  induction l with
  | nil => rfl
  | cons kv rest ih =>
    obtain ⟨k1, v1⟩ := kv
    simp only [List.map_cons, List.nodup_cons] at h
    obtain ⟨h1, h2⟩ := h
    rw [List.reverse_cons, dictLookup_append, ih h2]
    by_cases hk : k1 = key
    · subst hk
      rw [dictLookup_eq_none_of_not_mem rest k1 h1]
      simp [dictLookup, firstSome]
    · cases hl : dictLookup rest key <;>
        simp [dictLookup, firstSome, hk, hl]

/-- C8 counterexample: a persisted file holding only the unknown key
`FOO` yields a loaded configuration that still contains `FOO` —
`dict.update` retains unknown keys — differing from the spec-worded merge
in which unknown keys are ignored. -/
theorem c8_counterexample_unknown_key_kept :
    load_config "d" (.parsedDict [("FOO", JVal.num 1)])
        ≠ load_config_spec_merge "d" [("FOO", JVal.num 1)] ∧
    dictLookup (load_config "d" (.parsedDict [("FOO", JVal.num 1)])) "FOO"
        = some (JVal.num 1) ∧
    dictLookup (load_config_spec_merge "d" [("FOO", JVal.num 1)]) "FOO"
        = none := by
  refine ⟨?_, rfl, rfl⟩
  intro h
  have h2 := congrArg (fun d => dictLookup d "FOO") h
  simp only [load_config, load_config_spec_merge] at h2
  exact absurd h2 (by decide)

/-- C8 as amended: the loaded configuration equals the built-in defaults
overridden by the file's values with unknown keys retained as additional
entries; it equals exactly the defaults when the file is absent,
malformed JSON, or valid JSON that is not an object. -/
theorem c8_amended_merge (cwd : String) (file : FileState)
    (entries : List (String × JVal)) (k : String)
    (hnodup : (entries.map Prod.fst).Nodup) :
    (file = .absent ∨ file = .malformed ∨ file = .parsedNonDict →
      load_config cwd file = DEFAULT_CONFIG cwd) ∧
    dictLookup (load_config cwd (.parsedDict entries)) k
      = firstSome (dictLookup entries k)
          (dictLookup (DEFAULT_CONFIG cwd) k) := by
  constructor
  · rintro (rfl | rfl | rfl) <;> rfl
  · show dictLookup (dictUpdate (DEFAULT_CONFIG cwd) entries) k = _
    rw [dictLookup_dictUpdate, dictLookup_reverse_of_nodup entries k hnodup]

/-- Witness for C8's amended statement on a file holding one known and
one unknown key: the known key takes the file's value, the unknown key is
retained, and an absent file yields exactly the defaults. -/
theorem c8_amended_merge_witness :
    (([("LOG_LEVEL", JVal.str "DEBUG"), ("FOO", JVal.num 1)].map
        (Prod.fst (α := String) (β := JVal))).Nodup) ∧
    load_config "d" .absent = DEFAULT_CONFIG "d" ∧
    dictLookup (load_config "d"
        (.parsedDict [("LOG_LEVEL", JVal.str "DEBUG"), ("FOO", JVal.num 1)]))
        "LOG_LEVEL" = some (JVal.str "DEBUG") ∧
    dictLookup (load_config "d"
        (.parsedDict [("LOG_LEVEL", JVal.str "DEBUG"), ("FOO", JVal.num 1)]))
        "FOO" = some (JVal.num 1) := by
  have h1 := c8_amended_merge "d" .absent
    [("LOG_LEVEL", JVal.str "DEBUG"), ("FOO", JVal.num 1)] "LOG_LEVEL"
    (by decide)
  have h2 := c8_amended_merge "d" .absent
    [("LOG_LEVEL", JVal.str "DEBUG"), ("FOO", JVal.num 1)] "FOO"
    (by decide)
  refine ⟨by decide, h1.1 (Or.inl rfl), ?_, ?_⟩
  · rw [h1.2]; rfl
  · rw [h2.2]; rfl

/-- C9: every configuration `load_config` returns contains all four
default keys, whatever the persisted file held. -/
theorem c9_default_keys_present (cwd : String) (file : FileState)
    (k : String)
    (hk : k ∈ (["LOG_LEVEL", "MAX_BYTES", "BACKUP_COUNT", "CURRENT_DIR"] :
        List String)) :
    (dictLookup (load_config cwd file) k).isSome = true := by
  have hdef : (dictLookup (DEFAULT_CONFIG cwd) k).isSome = true := by
    simp only [List.mem_cons, List.mem_singleton, List.not_mem_nil,
      or_false] at hk
    rcases hk with rfl | rfl | rfl | rfl <;> rfl
  cases file with
  | parsedDict entries =>
    show (dictLookup (dictUpdate (DEFAULT_CONFIG cwd) entries) k).isSome = true
    rw [dictLookup_dictUpdate]
    cases hl : dictLookup entries.reverse k <;>
      simp_all [firstSome]
  | absent => exact hdef
  | malformed => exact hdef
  | parsedNonDict => exact hdef

/-- Witness for C9 at the key LOG_LEVEL and an absent file. -/
theorem c9_default_keys_present_witness :
    ("LOG_LEVEL" ∈ (["LOG_LEVEL", "MAX_BYTES", "BACKUP_COUNT",
        "CURRENT_DIR"] : List String)) ∧
    (dictLookup (load_config "d" .absent) "LOG_LEVEL").isSome = true :=
  ⟨by decide, c9_default_keys_present "d" .absent "LOG_LEVEL" (by decide)⟩

/-! ## Bit-level lemmas for the terminal guard claim -/

/-- Subtracting a set bit clears exactly that bit. -/
theorem testBit_sub_two_pow {l : Nat} (k : Nat) (h : l.testBit k = true)
    (i : Nat) :
    (l - 2 ^ k).testBit i = if i = k then false else l.testBit i := by
  induction k generalizing l i with
  | zero =>
    have hodd : l % 2 = 1 := by
      have h0 := h
      rw [Nat.testBit_zero] at h0
      exact of_decide_eq_true h0
    cases i with
    | zero =>
      rw [Nat.pow_zero, if_pos rfl, Nat.testBit_zero,
        decide_eq_false_iff_not]
      omega
    | succ j =>
      have hdiv : (l - 1) / 2 = l / 2 := by omega
      rw [Nat.pow_zero, if_neg (Nat.succ_ne_zero j),
        ← Nat.testBit_div_two (l - 1) j, hdiv, Nat.testBit_div_two]
  | succ k ih =>
    have hge : 2 ^ (k + 1) ≤ l := Nat.testBit_implies_ge h
    have hp : 2 ^ (k + 1) = 2 * 2 ^ k := by
      rw [Nat.pow_succ]; ring
    have hbit : (l / 2).testBit k = true := by
      rw [Nat.testBit_div_two]; exact h
    cases i with
    | zero =>
      have hmod : (l - 2 ^ (k + 1)) % 2 = l % 2 := by omega
      rw [if_neg (by omega : ¬(0 = k + 1)), Nat.testBit_zero,
        Nat.testBit_zero, hmod]
    | succ j =>
      have hdiv : (l - 2 ^ (k + 1)) / 2 = l / 2 - 2 ^ k := by omega
      rw [← Nat.testBit_div_two (l - 2 ^ (k + 1)) j, hdiv, ih hbit j]
      by_cases hj : j = k
      · subst hj; simp
      · have hj1 : ¬(j + 1 = k + 1) := by omega
        rw [if_neg hj, if_neg hj1, Nat.testBit_div_two]

/-- Clearing the ECHOCTL mask changes exactly bit 9 of the local-modes
flags: that bit becomes 0 and every other bit is untouched. -/
theorem clearMask_echoctl_testBit (l i : Nat) :
    (clearMask l ECHOCTL).testBit i
      = if i = 9 then false else l.testBit i := by
  have h512 : ECHOCTL = 2 ^ 9 := by norm_num [ECHOCTL]
  unfold clearMask
  rw [h512, Nat.and_two_pow]
  cases hb : l.testBit 9 with
  | false =>
    simp only [hb, Bool.toNat_false, Nat.zero_mul, Nat.sub_zero]
    by_cases hi : i = 9
    · subst hi; simp [hb]
    · simp [hi]
  | true =>
    simp only [hb, Bool.toNat_true, Nat.one_mul]
    exact testBit_sub_two_pow 9 hb i

/-- C10: when standard input is a TTY and the attribute calls succeed,
acquiring the echo guard snapshots the prior attributes verbatim, leaves
every field other than the local-modes flags untouched, and within the
local-modes flags clears exactly the ECHOCTL bit (bit 9), leaving every
other bit as it was. -/
theorem c10_acquire_touches_only_echoctl (t : TermAttrs) :
    (suppress_ctrl_c_echo true false false t).1 = some t ∧
    (suppress_ctrl_c_echo true false false t).2.iflag = t.iflag ∧
    (suppress_ctrl_c_echo true false false t).2.oflag = t.oflag ∧
    (suppress_ctrl_c_echo true false false t).2.cflag = t.cflag ∧
    (suppress_ctrl_c_echo true false false t).2.ispeed = t.ispeed ∧
    (suppress_ctrl_c_echo true false false t).2.ospeed = t.ospeed ∧
    (suppress_ctrl_c_echo true false false t).2.cc = t.cc ∧
    (suppress_ctrl_c_echo true false false t).2.lflag.testBit 9 = false ∧
    ∀ i : Nat, i ≠ 9 →
      (suppress_ctrl_c_echo true false false t).2.lflag.testBit i
        = t.lflag.testBit i := by
  refine ⟨rfl, rfl, rfl, rfl, rfl, rfl, rfl, ?_, ?_⟩
  · have h := clearMask_echoctl_testBit t.lflag 9
    simpa [suppress_ctrl_c_echo] using h
  · intro i hi
    have h := clearMask_echoctl_testBit t.lflag i
    simpa [suppress_ctrl_c_echo, hi] using h

/-- Witness for C10 at concrete terminal attributes and bit 3. -/
theorem c10_acquire_touches_only_echoctl_witness :
    ((3 : Nat) ≠ 9) ∧
    (suppress_ctrl_c_echo true false false
        ⟨1, 2, 3, 1546, 5, 6, [7]⟩).2.lflag.testBit 3
      = (TermAttrs.mk 1 2 3 1546 5 6 [7]).lflag.testBit 3 :=
  ⟨by decide,
    (c10_acquire_touches_only_echoctl ⟨1, 2, 3, 1546, 5, 6, [7]⟩).2.2.2.2.2.2.2.2
      3 (by decide)⟩

end WS
